import Mathlib

/-!
Verification of the `cargo rustc` subcommand front-end
(`src/bin/rustc.rs`): a shallow embedding of its option parsing result,
package loading, compile-option assembly and the rustc-invocation
interceptor, together with theorems about the claims of the spec.

External collaborators (manifest resolution, the path source, the
compile operation) are modelled as an explicit environment of
`Except`-returning functions; the calls the front-end makes to them are
recorded in an event trace so that ordering and absence of calls can be
stated.  Rust panics (`unwrap` on `None`) are modelled by a dedicated
`panic` outcome.
-/

namespace CargoRustc

/-- Errors of the wrapped cargo library (`Box<CargoError>`): kept
abstract as a message string. -/
abbrev CargoError := String

/-- A filesystem path, as its list of components. -/
abbrev Path := List String

/-- `Path::parent`: `none` for an empty path, otherwise the path with
the last component dropped. -/
def Path.parent (p : Path) : Option Path :=
  match p with
  | [] => none
  | _ => some p.dropLast

/-- The state handle of a `PathSource`, kept abstract. -/
abbrev PathSource := Nat

/-- `cargo::util::CliError`: an error message together with the process
exit code it carries. -/
structure CliError where
  error : CargoError
  exit_code : Nat
deriving DecidableEq, Repr

/-- `CliError::from_boxed(err, code)`. -/
def CliError.from_boxed (e : CargoError) (code : Nat) : CliError :=
  { error := e, exit_code := code }

/-- Modelled from the spec: the conversion applied by `try!` when a
`CargoResult` error propagates out of a `CliResult` function (a `From`
impl of the cargo library, not present under `src/`): "All failures
(manifest not found, package load failure, compile failure) are
propagated upward and converted to a CLI-level error carrying a fixed
exit code".  The fixed exit code is 101. -/
def cli_from_error (e : CargoError) : CliError :=
  CliError.from_boxed e 101

/-- Result of running a front-end function: success, an error value, or
a Rust panic (`unwrap` on `None`). -/
inductive Outcome (ε α : Type) where
  | ok (a : α)
  | err (e : ε)
  | panic
deriving DecidableEq, Repr

/-- The parsed command-line options of `cargo rustc` (struct `Options`
in `src/bin/rustc.rs`). -/
structure Options where
  arg_pkgid : Option String
  arg_opts : Option (List String)
  flag_jobs : Option Nat
  flag_features : List String
  flag_no_default_features : Bool
  flag_profile : Option String
  flag_target : Option String
  flag_manifest_path : Option String
  flag_verbose : Bool
  flag_release : Bool
deriving DecidableEq, Repr

/-- The kind of a cargo target. -/
inductive TargetKind where
  | Lib
  | Bin
  | Example
  | Test
  | Bench
deriving DecidableEq, Repr

/-- A cargo target: a name and a kind. -/
structure Target where
  name : String
  kind : TargetKind
deriving DecidableEq, Repr

/-- `Target::is_bin`. -/
def Target.is_bin (t : Target) : Bool :=
  t.kind == TargetKind.Bin

/-- A package id; only its name is consumed by this front-end. -/
structure PackageId where
  name : String
deriving DecidableEq, Repr

/-- A loaded package: its id and its target list. -/
structure Package where
  package_id : PackageId
  targets : List Target
deriving DecidableEq, Repr

/-- The `RustcEngine` exec-engine value: the trailing passthrough
arguments and the binary target names. -/
structure RustcEngine where
  args : Option (List String)
  targets : List String
deriving DecidableEq, Repr

/-- `ops::CompileMode`; only `Build` is used here. -/
inductive CompileMode where
  | Build
  | Test
deriving DecidableEq, Repr

/-- `ops::CompileFilter`. -/
inductive CompileFilter where
  | Everything
  | Only (lib : Bool) (bins : List String) (examples : List String)
      (benches : List String) (tests : List String)
deriving DecidableEq, Repr

/-- `ops::CompileOptions` as assembled by `execute` (the borrowed
`config` field and the `Arc` wrapping of the engine are elided; the
engine's data is kept). -/
structure CompileOptions where
  jobs : Option Nat
  target : Option String
  features : List String
  no_default_features : Bool
  spec : Option String
  exec_engine : RustcEngine
  mode : CompileMode
  release : Bool
  filter : CompileFilter
deriving DecidableEq, Repr

/-- A compiler invocation prototype; only its argument list is
inspected by this front-end. -/
structure CommandPrototype where
  args : List String
deriving DecidableEq, Repr

/-- `CommandPrototype::get_args`. -/
def CommandPrototype.get_args (c : CommandPrototype) : List String :=
  c.args

/-- The process builder produced by `into_process_builder`; only its
argument list matters here. -/
structure ProcessBuilder where
  args : List String
deriving DecidableEq, Repr

/-- `slice::windows(2)`: the consecutive pairs of a list. -/
def windows2 : List String → List (String × String)
  | a :: b :: rest => (a, b) :: windows2 (b :: rest)
  | _ => []

/-- The `name_matches` test of `append_rustc_opts`: some window of two
consecutive arguments is `--crate-name` followed by a name in the
binary target list. -/
def name_matches (cmdArgs targets : List String) : Bool :=
  (windows2 cmdArgs).any fun p =>
    p.1 == "--crate-name" && targets.any fun target => target == p.2

/-- `append_rustc_opts` from `src/bin/rustc.rs`: when the command's
argument list matches and trailing arguments were supplied, append them
before turning the command into a process builder. -/
def append_rustc_opts (command : CommandPrototype)
    (args : Option (List String)) (targets : List String) :
    ProcessBuilder :=
  if name_matches command.get_args targets then
    match args with
    | some a => { args := command.args ++ a }
    | none => { args := command.args }
  else { args := command.args }

/-- The spec's wording of the marker condition: the argument list
contains `--crate-name` immediately followed by a name present in the
binary target list. -/
def hasCrateNameMatch (cmdArgs targets : List String) : Prop :=
  ∃ pre post t, cmdArgs = pre ++ "--crate-name" :: t :: post ∧ t ∈ targets

theorem windows2_mem (l : List String) (x y : String) :
    (x, y) ∈ windows2 l ↔ ∃ pre post, l = pre ++ x :: y :: post := by
  induction l with
  | nil =>
    simp only [windows2, List.not_mem_nil, false_iff, not_exists]
    intro pre post h
    cases pre <;> simp at h
  | cons a rest ih =>
    cases rest with
    | nil =>
      simp only [windows2, List.not_mem_nil, false_iff, not_exists]
      intro pre post h
      cases pre with
      | nil => simp at h
      | cons p pre2 => cases pre2 <;> simp at h
    | cons b rest2 =>
      simp only [windows2, List.mem_cons]
      constructor
      · rintro (hpair | hmem)
        · refine ⟨[], rest2, ?_⟩
          have hx : a = x := congrArg Prod.fst hpair.symm
          have hy : b = y := congrArg Prod.snd hpair.symm
          simp [hx, hy]
        · obtain ⟨pre, post, hrest⟩ := ih.mp hmem
          exact ⟨a :: pre, post, by simp [hrest]⟩
      · rintro ⟨pre, post, h⟩
        cases pre with
        | nil =>
          left
          simp only [List.nil_append, List.cons.injEq] at h
          obtain ⟨hx, hy, _⟩ := h
          simp [hx, hy]
        | cons p pre2 =>
          right
          simp only [List.cons_append, List.cons.injEq] at h
          exact ih.mpr ⟨pre2, post, h.2⟩

theorem name_matches_iff (cmdArgs targets : List String) :
    name_matches cmdArgs targets = true ↔
      hasCrateNameMatch cmdArgs targets := by
  unfold name_matches hasCrateNameMatch
  rw [List.any_eq_true]
  constructor
  · rintro ⟨⟨x, y⟩, hmem, hp⟩
    simp only [Bool.and_eq_true, beq_iff_eq, List.any_eq_true] at hp
    obtain ⟨hx, t, ht, hty⟩ := hp
    obtain ⟨pre, post, hl⟩ := (windows2_mem cmdArgs x y).mp hmem
    subst hx
    exact ⟨pre, post, y, hl, hty ▸ ht⟩
  · rintro ⟨pre, post, t, hl, ht⟩
    refine ⟨("--crate-name", t),
      (windows2_mem cmdArgs "--crate-name" t).mpr ⟨pre, post, hl⟩, ?_⟩
    simp only [Bool.and_eq_true, beq_iff_eq, List.any_eq_true]
    exact ⟨trivial, t, ht, rfl⟩

/-- The external collaborators consumed by the front-end, as an
environment of fallible functions: manifest resolution
(`find_root_manifest_for_cwd`), the path-source operations
(`PathSource::for_path`, `update`, `root_package`) and the compile
operation (`ops::compile`). -/
structure Env where
  find_root_manifest_for_cwd : Option String → Except CargoError Path
  for_path : Path → Except CargoError PathSource
  update : PathSource → Except CargoError PathSource
  root_package : PathSource → Except CargoError Package
  compile : Path → CompileOptions → Except CargoError Unit

/-- The calls the front-end makes to its collaborators, recorded in
order. -/
inductive Event where
  | evForPath (dir : Path)
  | evUpdate (src : PathSource)
  | evRootPackage (src : PathSource)
  | evCompile (root : Path) (opts : CompileOptions)
deriving DecidableEq, Repr

/-- `get_package` from `src/bin/rustc.rs`: build a path source for the
manifest's parent directory, update it, then ask for its root package.
`root.parent().unwrap()` panics when the path has no parent. -/
def get_package (env : Env) (root : Path) :
    Outcome CargoError Package × List Event :=
  match Path.parent root with
  | none => (Outcome.panic, [])
  | some dir =>
    match env.for_path dir with
    | Except.error e => (Outcome.err e, [Event.evForPath dir])
    | Except.ok src =>
      match env.update src with
      | Except.error e =>
        (Outcome.err e, [Event.evForPath dir, Event.evUpdate src])
      | Except.ok src2 =>
        match env.root_package src2 with
        | Except.error e =>
          (Outcome.err e,
           [Event.evForPath dir, Event.evUpdate src,
            Event.evRootPackage src2])
        | Except.ok pkg =>
          (Outcome.ok pkg,
           [Event.evForPath dir, Event.evUpdate src,
            Event.evRootPackage src2])

/-- The binary target names of a package, as collected by `execute`:
names of the targets for which `is_bin` holds. -/
def bins (package : Package) : List String :=
  (package.targets.filter Target.is_bin).map Target.name

/-- The `CompileOptions` value assembled by `execute` from the parsed
options, the computed `spec` and the binary target names. -/
def mk_compile_opts (options : Options) (spec : Option String)
    (bs : List String) : CompileOptions :=
  { jobs := options.flag_jobs
    target := options.flag_target
    features := options.flag_features
    no_default_features := options.flag_no_default_features
    spec := spec
    exec_engine := { args := options.arg_opts, targets := bs }
    mode := CompileMode.Build
    release := options.flag_release
    filter :=
      if bs.isEmpty then CompileFilter.Everything
      else CompileFilter.Only false bs [] [] [] }

/-- The `spec` computed by `execute` from a present `arg_pkgid` value
`s`: `None` when `s` equals the root package's name, `Some s`
otherwise. -/
def spec_arg (s name : String) : Option String :=
  if s == name then none else some s

/-- `execute` from `src/bin/rustc.rs`: resolve the manifest, load the
package, compute `spec` (panicking via `unwrap` when `arg_pkgid` is
absent), collect binary target names, assemble the compile options and
call the compile operation, mapping a compile failure to a `CliError`
with exit code 101 and success to `Ok(None)`. -/
def execute (env : Env) (options : Options) :
    Outcome CliError (Option Unit) × List Event :=
  match env.find_root_manifest_for_cwd options.flag_manifest_path with
  | Except.error e => (Outcome.err (cli_from_error e), [])
  | Except.ok root =>
    match get_package env root with
    | (Outcome.err e, evs) => (Outcome.err (cli_from_error e), evs)
    | (Outcome.panic, evs) => (Outcome.panic, evs)
    | (Outcome.ok package, evs) =>
      match options.arg_pkgid with
      | none => (Outcome.panic, evs)
      | some s =>
        let spec : Option String := spec_arg s package.package_id.name
        let bs := bins package
        let opts := mk_compile_opts options spec bs
        match env.compile root opts with
        | Except.error e =>
          (Outcome.err (CliError.from_boxed e 101),
           evs ++ [Event.evCompile root opts])
        | Except.ok _ =>
          (Outcome.ok none, evs ++ [Event.evCompile root opts])

/-- The compile options of the first compile call recorded in a trace,
if any. -/
def compiled_opts : List Event → Option CompileOptions
  | [] => none
  | Event.evCompile _ o :: _ => some o
  | _ :: rest => compiled_opts rest

theorem execute_success_compile_err (env : Env) (options : Options)
    (root dir : Path) (src src2 : PathSource) (pkg : Package)
    (s : String) (e : CargoError)
    (h1 : env.find_root_manifest_for_cwd options.flag_manifest_path =
      Except.ok root)
    (h2 : Path.parent root = some dir)
    (h3 : env.for_path dir = Except.ok src)
    (h4 : env.update src = Except.ok src2)
    (h5 : env.root_package src2 = Except.ok pkg)
    (h6 : options.arg_pkgid = some s)
    (hc : env.compile root (mk_compile_opts options
      (spec_arg s pkg.package_id.name) (bins pkg)) = Except.error e) :
    execute env options =
      (Outcome.err (CliError.from_boxed e 101),
       [Event.evForPath dir, Event.evUpdate src, Event.evRootPackage src2,
        Event.evCompile root (mk_compile_opts options
          (spec_arg s pkg.package_id.name) (bins pkg))]) := by
  simp only [execute, get_package, h1, h2, h3, h4, h5, h6, hc,
    List.cons_append, List.nil_append]

theorem execute_success_compile_ok (env : Env) (options : Options)
    (root dir : Path) (src src2 : PathSource) (pkg : Package)
    (s : String) (u : Unit)
    (h1 : env.find_root_manifest_for_cwd options.flag_manifest_path =
      Except.ok root)
    (h2 : Path.parent root = some dir)
    (h3 : env.for_path dir = Except.ok src)
    (h4 : env.update src = Except.ok src2)
    (h5 : env.root_package src2 = Except.ok pkg)
    (h6 : options.arg_pkgid = some s)
    (hc : env.compile root (mk_compile_opts options
      (spec_arg s pkg.package_id.name) (bins pkg)) = Except.ok u) :
    execute env options =
      (Outcome.ok none,
       [Event.evForPath dir, Event.evUpdate src, Event.evRootPackage src2,
        Event.evCompile root (mk_compile_opts options
          (spec_arg s pkg.package_id.name) (bins pkg))]) := by
  simp only [execute, get_package, h1, h2, h3, h4, h5, h6, hc,
    List.cons_append, List.nil_append]

/-!
Concrete fixtures used by the witness theorems: a package with one
library and one binary target, a package with only a library target,
and environments in which every collaborator succeeds (or manifest
resolution fails).
-/

/-- A package named `mypkg` with a library target and one binary target
named `abin`. -/
def pkg0 : Package :=
  { package_id := { name := "mypkg" },
    targets := [ { name := "mypkg", kind := TargetKind.Lib },
                 { name := "abin", kind := TargetKind.Bin } ] }

/-- A package named `libonly` with a library target and no binary
targets. -/
def pkg1 : Package :=
  { package_id := { name := "libonly" },
    targets := [ { name := "libonly", kind := TargetKind.Lib } ] }

/-- A concrete manifest path. -/
def root0 : Path := ["home", "proj", "Cargo.toml"]

/-- An environment in which every collaborator succeeds and the loaded
package is `pkg0`. -/
def env0 : Env :=
  { find_root_manifest_for_cwd := fun _ => Except.ok root0
    for_path := fun _ => Except.ok 0
    update := fun src => Except.ok src
    root_package := fun _ => Except.ok pkg0
    compile := fun _ _ => Except.ok () }

/-- Like `env0` but the loaded package is `pkg1` (no binaries). -/
def env1 : Env := { env0 with root_package := fun _ => Except.ok pkg1 }

/-- Like `env0` but manifest resolution fails. -/
def envNoManifest : Env :=
  { env0 with
    find_root_manifest_for_cwd :=
      fun _ => Except.error "manifest not found" }

/-- Parsed options selecting package id `mypkg` with trailing
passthrough arguments. -/
def opts0 : Options :=
  { arg_pkgid := some "mypkg", arg_opts := some ["--cfg", "extra"],
    flag_jobs := none, flag_features := [],
    flag_no_default_features := false, flag_profile := none,
    flag_target := none, flag_manifest_path := none,
    flag_verbose := false, flag_release := false }

/-- Like `opts0` but with no package id argument. -/
def optsNone : Options := { opts0 with arg_pkgid := none }

/-- Like `opts0` but selecting package id `libonly`. -/
def optsLib : Options := { opts0 with arg_pkgid := some "libonly" }

/-!
The claims.
-/

/-- C2: `append_rustc_opts` appends the user's trailing passthrough
arguments (when supplied) to a compiler invocation exactly when the
invocation's argument list contains `--crate-name` immediately followed
by a name present in the binary target list (the `name_matches` test,
shown equivalent to that wording); every invocation with no such match
is returned with its argument list unchanged, whatever the trailing
arguments are. -/
theorem C2_append_iff_crate_name_match (command : CommandPrototype)
    (targets a : List String) :
    (name_matches command.get_args targets = true ↔
       hasCrateNameMatch command.get_args targets) ∧
    ((append_rustc_opts command (some a) targets).args =
       if name_matches command.get_args targets then command.args ++ a
       else command.args) ∧
    (name_matches command.get_args targets = false →
      ∀ args, (append_rustc_opts command args targets).args =
        command.args) := by
  refine ⟨name_matches_iff _ _, ?_, ?_⟩
  · unfold append_rustc_opts
    cases h : name_matches command.get_args targets <;> simp [h]
  · intro h args
    unfold append_rustc_opts
    simp [h]

/-- Witness for C2 at a concrete invocation whose `--crate-name` is the
binary target `abin`. -/
theorem C2_witness :
    (append_rustc_opts { args := ["--crate-name", "abin", "--emit=link"] }
        (some ["--cfg", "extra"]) ["abin"]).args =
      ["--crate-name", "abin", "--emit=link", "--cfg", "extra"] := by
  have h := C2_append_iff_crate_name_match
    { args := ["--crate-name", "abin", "--emit=link"] } ["abin"]
    ["--cfg", "extra"]
  rw [h.2.1]
  decide

/-- C10: when the trailing passthrough arguments are `None`,
`append_rustc_opts` returns the command's argument list unchanged, even
when a `--crate-name` match with a binary target exists. -/
theorem C10_none_args_unchanged (command : CommandPrototype)
    (targets : List String) :
    (append_rustc_opts command none targets).args = command.args := by
  unfold append_rustc_opts
  cases h : name_matches command.get_args targets <;> simp

/-- C3: when `arg_pkgid` is absent, `execute` panics (the `unwrap` of
the mapped option) once the package has been loaded successfully. -/
theorem C3_panic_without_pkgid (env : Env) (options : Options)
    (root dir : Path) (src src2 : PathSource) (pkg : Package)
    (h1 : env.find_root_manifest_for_cwd options.flag_manifest_path =
      Except.ok root)
    (h2 : Path.parent root = some dir)
    (h3 : env.for_path dir = Except.ok src)
    (h4 : env.update src = Except.ok src2)
    (h5 : env.root_package src2 = Except.ok pkg)
    (h6 : options.arg_pkgid = none) :
    (execute env options).1 = Outcome.panic := by
  simp only [execute, get_package, h1, h2, h3, h4, h5, h6]

/-- Witness for C3: every collaborator succeeds, `arg_pkgid` is `none`,
and `execute` panics. -/
theorem C3_witness : (execute env0 optsNone).1 = Outcome.panic :=
  C3_panic_without_pkgid env0 optsNone root0 ["home", "proj"] 0 0 pkg0
    rfl rfl rfl rfl rfl rfl

/-- C5: when manifest resolution fails, `execute` returns that
resolution error (converted to a CLI error) and no compile call is
recorded: the failure occurs before any compile attempt. -/
theorem C5_manifest_failure_before_compile (env : Env)
    (options : Options) (e : CargoError)
    (h : env.find_root_manifest_for_cwd options.flag_manifest_path =
      Except.error e) :
    (execute env options).1 = Outcome.err (cli_from_error e) ∧
    ∀ r o, Event.evCompile r o ∉ (execute env options).2 := by
  simp only [execute, h]
  exact ⟨trivial, fun r o => List.not_mem_nil _⟩

/-- Witness for C5 at an environment whose manifest resolution fails. -/
theorem C5_witness :
    (execute envNoManifest opts0).1 =
      Outcome.err (cli_from_error "manifest not found") ∧
    Event.evCompile root0 (mk_compile_opts opts0 none (bins pkg0)) ∉
      (execute envNoManifest opts0).2 :=
  ⟨(C5_manifest_failure_before_compile envNoManifest opts0
      "manifest not found" rfl).1,
   (C5_manifest_failure_before_compile envNoManifest opts0
      "manifest not found" rfl).2 root0 _⟩

/-- C8: for a manifest root with a parent directory, `get_package`
creates a path source for that parent first; a `for_path` failure is
returned with no further calls; on success, `update` is called, an
`update` failure is returned before any `root_package` call; and only
after a successful `update` is `root_package` consulted, its result
(package or error) being returned. -/
theorem C8_get_package_update_before_root (env : Env) (root dir : Path)
    (hdir : Path.parent root = some dir) :
    (∀ e, env.for_path dir = Except.error e →
       get_package env root = (Outcome.err e, [Event.evForPath dir])) ∧
    (∀ src, env.for_path dir = Except.ok src →
      (∀ e, env.update src = Except.error e →
         get_package env root =
           (Outcome.err e, [Event.evForPath dir, Event.evUpdate src])) ∧
      (∀ src2, env.update src = Except.ok src2 →
        (∀ e, env.root_package src2 = Except.error e →
           get_package env root = (Outcome.err e,
             [Event.evForPath dir, Event.evUpdate src,
              Event.evRootPackage src2])) ∧
        (∀ pkg, env.root_package src2 = Except.ok pkg →
           get_package env root = (Outcome.ok pkg,
             [Event.evForPath dir, Event.evUpdate src,
              Event.evRootPackage src2])))) := by
  refine ⟨fun e he => ?_, fun src hsrc => ⟨fun e he => ?_,
    fun src2 hsrc2 => ⟨fun e he => ?_, fun pkg hpkg => ?_⟩⟩⟩
  · simp only [get_package, hdir, he]
  · simp only [get_package, hdir, hsrc, he]
  · simp only [get_package, hdir, hsrc, hsrc2, he]
  · simp only [get_package, hdir, hsrc, hsrc2, hpkg]

/-- Witness for C8 at the all-success environment. -/
theorem C8_witness :
    get_package env0 root0 = (Outcome.ok pkg0,
      [Event.evForPath ["home", "proj"], Event.evUpdate 0,
       Event.evRootPackage 0]) :=
  ((((C8_get_package_update_before_root env0 root0 ["home", "proj"]
      rfl).2 0 rfl).2 0 rfl).2 pkg0 rfl)

/-- C1 (counterexample): the claim says that with binary targets
present the filter selects those binaries plus the library; but at the
all-success environment loading `pkg0` (one binary `abin`), the filter
handed to compile is `Only` with `lib := false`, not the claimed
`lib := true`. -/
theorem C1_counterexample :
    ¬ ((compiled_opts (execute env0 opts0).2).map CompileOptions.filter
        = some (CompileFilter.Only true (bins pkg0) [] [] [])) := by
  decide

/-- C1 (amended): when the loaded package has at least one binary
target, the filter of the compile options handed to the compile
operation is `Only` over exactly the binary target names, with the
library flag `false` (the library is not selected) and no examples,
benches, or tests. -/
theorem C1_filter_only_bins (env : Env) (options : Options)
    (root dir : Path) (src src2 : PathSource) (pkg : Package)
    (s : String)
    (h1 : env.find_root_manifest_for_cwd options.flag_manifest_path =
      Except.ok root)
    (h2 : Path.parent root = some dir)
    (h3 : env.for_path dir = Except.ok src)
    (h4 : env.update src = Except.ok src2)
    (h5 : env.root_package src2 = Except.ok pkg)
    (h6 : options.arg_pkgid = some s)
    (hb : bins pkg ≠ []) :
    (compiled_opts (execute env options).2).map CompileOptions.filter =
      some (CompileFilter.Only false (bins pkg) [] [] []) := by
  have hbe : (bins pkg).isEmpty = false := by
    cases hl : bins pkg with
    | nil => exact absurd hl hb
    | cons x xs => rfl
  cases hc : env.compile root (mk_compile_opts options
      (spec_arg s pkg.package_id.name) (bins pkg)) with
  | error e =>
    rw [execute_success_compile_err env options root dir src src2 pkg s e
      h1 h2 h3 h4 h5 h6 hc]
    simp [compiled_opts, mk_compile_opts, hbe]
  | ok u =>
    rw [execute_success_compile_ok env options root dir src src2 pkg s u
      h1 h2 h3 h4 h5 h6 hc]
    simp [compiled_opts, mk_compile_opts, hbe]

/-- Witness for the amended C1 at the all-success environment loading
`pkg0`, whose binary target list is nonempty. -/
theorem C1_witness :
    bins pkg0 ≠ [] ∧
    (compiled_opts (execute env0 opts0).2).map CompileOptions.filter =
      some (CompileFilter.Only false (bins pkg0) [] [] []) :=
  ⟨by decide,
   C1_filter_only_bins env0 opts0 root0 ["home", "proj"] 0 0 pkg0
     "mypkg" rfl rfl rfl rfl rfl rfl (by decide)⟩

/-- C4: when the loaded package has no binary targets, the filter of
the compile options handed to the compile operation is `Everything`. -/
theorem C4_filter_everything (env : Env) (options : Options)
    (root dir : Path) (src src2 : PathSource) (pkg : Package)
    (s : String)
    (h1 : env.find_root_manifest_for_cwd options.flag_manifest_path =
      Except.ok root)
    (h2 : Path.parent root = some dir)
    (h3 : env.for_path dir = Except.ok src)
    (h4 : env.update src = Except.ok src2)
    (h5 : env.root_package src2 = Except.ok pkg)
    (h6 : options.arg_pkgid = some s)
    (hb : bins pkg = []) :
    (compiled_opts (execute env options).2).map CompileOptions.filter =
      some CompileFilter.Everything := by
  cases hc : env.compile root (mk_compile_opts options
      (spec_arg s pkg.package_id.name) (bins pkg)) with
  | error e =>
    rw [execute_success_compile_err env options root dir src src2 pkg s e
      h1 h2 h3 h4 h5 h6 hc]
    simp [compiled_opts, mk_compile_opts, hb]
  | ok u =>
    rw [execute_success_compile_ok env options root dir src src2 pkg s u
      h1 h2 h3 h4 h5 h6 hc]
    simp [compiled_opts, mk_compile_opts, hb]

/-- Witness for C4 at the environment loading `pkg1`, which has no
binary targets. -/
theorem C4_witness :
    (compiled_opts (execute env1 optsLib).2).map CompileOptions.filter =
      some CompileFilter.Everything :=
  C4_filter_everything env1 optsLib root0 ["home", "proj"] 0 0 pkg1
    "libonly" rfl rfl rfl rfl rfl rfl rfl

/-- C6: once the package is loaded and a package id is present, a
compile failure makes `execute` return the CLI error built by
`from_boxed` with exit code 101, and a compile success makes it return
`Ok(None)`. -/
theorem C6_exit_codes (env : Env) (options : Options)
    (root dir : Path) (src src2 : PathSource) (pkg : Package)
    (s : String)
    (h1 : env.find_root_manifest_for_cwd options.flag_manifest_path =
      Except.ok root)
    (h2 : Path.parent root = some dir)
    (h3 : env.for_path dir = Except.ok src)
    (h4 : env.update src = Except.ok src2)
    (h5 : env.root_package src2 = Except.ok pkg)
    (h6 : options.arg_pkgid = some s) :
    (∀ e, env.compile root (mk_compile_opts options
        (spec_arg s pkg.package_id.name) (bins pkg)) = Except.error e →
      (execute env options).1 = Outcome.err (CliError.from_boxed e 101) ∧
      (CliError.from_boxed e 101).exit_code = 101) ∧
    (∀ u, env.compile root (mk_compile_opts options
        (spec_arg s pkg.package_id.name) (bins pkg)) = Except.ok u →
      (execute env options).1 = Outcome.ok none) := by
  constructor
  · intro e hc
    rw [execute_success_compile_err env options root dir src src2 pkg s e
      h1 h2 h3 h4 h5 h6 hc]
    exact ⟨rfl, rfl⟩
  · intro u hc
    rw [execute_success_compile_ok env options root dir src src2 pkg s u
      h1 h2 h3 h4 h5 h6 hc]

/-- Witness for C6 at the all-success environment: compilation
succeeds and `execute` returns `Ok(None)`. -/
theorem C6_witness : (execute env0 opts0).1 = Outcome.ok none :=
  (C6_exit_codes env0 opts0 root0 ["home", "proj"] 0 0 pkg0 "mypkg"
    rfl rfl rfl rfl rfl rfl).2 () rfl

/-- C7: the compile options handed to the compile operation are exactly
`mk_compile_opts`, whose fields pass the user-supplied values through
unchanged: `jobs`, `target`, `features`, `no_default_features`,
`release` equal the parsed flags and `mode` is `Build`. -/
theorem C7_options_passthrough (env : Env) (options : Options)
    (root dir : Path) (src src2 : PathSource) (pkg : Package)
    (s : String)
    (h1 : env.find_root_manifest_for_cwd options.flag_manifest_path =
      Except.ok root)
    (h2 : Path.parent root = some dir)
    (h3 : env.for_path dir = Except.ok src)
    (h4 : env.update src = Except.ok src2)
    (h5 : env.root_package src2 = Except.ok pkg)
    (h6 : options.arg_pkgid = some s) :
    compiled_opts (execute env options).2 =
      some (mk_compile_opts options (spec_arg s pkg.package_id.name)
        (bins pkg)) ∧
    (mk_compile_opts options (spec_arg s pkg.package_id.name)
        (bins pkg)).jobs = options.flag_jobs ∧
    (mk_compile_opts options (spec_arg s pkg.package_id.name)
        (bins pkg)).target = options.flag_target ∧
    (mk_compile_opts options (spec_arg s pkg.package_id.name)
        (bins pkg)).features = options.flag_features ∧
    (mk_compile_opts options (spec_arg s pkg.package_id.name)
        (bins pkg)).no_default_features =
      options.flag_no_default_features ∧
    (mk_compile_opts options (spec_arg s pkg.package_id.name)
        (bins pkg)).release = options.flag_release ∧
    (mk_compile_opts options (spec_arg s pkg.package_id.name)
        (bins pkg)).mode = CompileMode.Build := by
  refine ⟨?_, rfl, rfl, rfl, rfl, rfl, rfl⟩
  cases hc : env.compile root (mk_compile_opts options
      (spec_arg s pkg.package_id.name) (bins pkg)) with
  | error e =>
    rw [execute_success_compile_err env options root dir src src2 pkg s e
      h1 h2 h3 h4 h5 h6 hc]
    simp [compiled_opts]
  | ok u =>
    rw [execute_success_compile_ok env options root dir src src2 pkg s u
      h1 h2 h3 h4 h5 h6 hc]
    simp [compiled_opts]

/-- Witness for C7 at the all-success environment. -/
theorem C7_witness :
    compiled_opts (execute env0 opts0).2 =
      some (mk_compile_opts opts0
        (spec_arg "mypkg" pkg0.package_id.name) (bins pkg0)) ∧
    (mk_compile_opts opts0 (spec_arg "mypkg" pkg0.package_id.name)
        (bins pkg0)).jobs = opts0.flag_jobs :=
  ⟨(C7_options_passthrough env0 opts0 root0 ["home", "proj"] 0 0 pkg0
      "mypkg" rfl rfl rfl rfl rfl rfl).1,
   (C7_options_passthrough env0 opts0 root0 ["home", "proj"] 0 0 pkg0
      "mypkg" rfl rfl rfl rfl rfl rfl).2.1⟩

/-- C9: when the supplied package id equals the root package's name the
`spec` of the compile options is `none`; for any other supplied id it
is `some` of that id. -/
theorem C9_spec_defaulting (env : Env) (options : Options)
    (root dir : Path) (src src2 : PathSource) (pkg : Package)
    (s : String)
    (h1 : env.find_root_manifest_for_cwd options.flag_manifest_path =
      Except.ok root)
    (h2 : Path.parent root = some dir)
    (h3 : env.for_path dir = Except.ok src)
    (h4 : env.update src = Except.ok src2)
    (h5 : env.root_package src2 = Except.ok pkg)
    (h6 : options.arg_pkgid = some s) :
    (compiled_opts (execute env options).2).map CompileOptions.spec =
      some (if s = pkg.package_id.name then none else some s) := by
  cases hc : env.compile root (mk_compile_opts options
      (spec_arg s pkg.package_id.name) (bins pkg)) with
  | error e =>
    rw [execute_success_compile_err env options root dir src src2 pkg s e
      h1 h2 h3 h4 h5 h6 hc]
    simp [compiled_opts, mk_compile_opts, spec_arg]
  | ok u =>
    rw [execute_success_compile_ok env options root dir src src2 pkg s u
      h1 h2 h3 h4 h5 h6 hc]
    simp [compiled_opts, mk_compile_opts, spec_arg]

/-- Witness for C9: the supplied package id `mypkg` equals the root
package's name, so the computed spec is `none`. -/
theorem C9_witness :
    (compiled_opts (execute env0 opts0).2).map CompileOptions.spec =
      some (if "mypkg" = pkg0.package_id.name then none
        else some "mypkg") :=
  C9_spec_defaulting env0 opts0 root0 ["home", "proj"] 0 0 pkg0 "mypkg"
    rfl rfl rfl rfl rfl rfl

end CargoRustc
